import Mathlib

/-!
Shallow embedding of grub-core/loader/mips64/linux.c (the GRUB mips64 Linux
loader) and proofs about its argument-blob construction, initrd attachment,
state machine and boot register state.

Machine integers are modelled as Nat with explicit reductions modulo 2^32
(resp. 2^64) exactly where the C code performs 32-bit (resp. 64-bit)
arithmetic or casts.  External collaborators (ELF parsing, the relocator
allocator, the initrd helper) are modelled as oracle inputs carried in
environment records; the requests the loader makes of the allocator are
recorded so that claims about "no allocation" and request parameters can be
stated.
-/

namespace GrubMips64Linux

/-- 2^32, the modulus of 32-bit machine arithmetic. -/
def M32 : Nat := 4294967296

/-- 2^64, the modulus of 64-bit machine arithmetic. -/
def M64 : Nat := 18446744073709551616

/-- ALIGN_UP (x, 4) of mm.h, on Nat.  For the power-of-two alignment 4 the
C mask form `(x + 3) & ~3` agrees with this division form. -/
def align4 (x : Nat) : Nat := (x + 3) / 4 * 4

/-- ALIGN_UP (x, 8) of mm.h, on Nat. -/
def align8 (x : Nat) : Nat := (x + 7) / 8 * 8

/-- Sign extension of a 32-bit bit pattern to the Nat denotation of the
corresponding 64-bit grub_size_t, as in the implicit `int -> grub_size_t`
conversion at the allocator call. -/
def int32ToSizeT (p : Nat) : Nat := if p < 2147483648 then p else M64 - M32 + p

/-- The 32-bit unsigned value of `(0xffffffff - size) + 1` as computed at
line 215 of linux.c (`size` converted to unsigned int, arithmetic mod 2^32). -/
def maxStart32 (size : Nat) : Nat := (4294967295 - size % M32 + 1) % M32

/-- The 64-bit unsigned value of `(0xffffffff - size) + 1` as computed at
line 286 of linux.c (`size` is grub_size_t, arithmetic mod 2^64). -/
def maxStart64 (size : Nat) : Nat := ((4294967295 + M64 - size % M64) % M64 + 1) % M64

/-- Hex digits of `n`, most significant first, lowercase, empty for 0.
The first argument is recursion fuel; `fuel = n` is always enough. -/
def hexCharsAux : Nat → Nat → List Char
  | 0, _ => []
  | _ + 1, 0 => []
  | fuel + 1, n + 1 =>
      hexCharsAux fuel ((n + 1) / 16) ++ [Nat.digitChar ((n + 1) % 16)]

/-- Rendering of `%lx` in grub_snprintf: lowercase hex, no padding,
"0" for zero. -/
def hexStr (n : Nat) : String :=
  if n = 0 then "0" else String.mk (hexCharsAux n n)

/-- grub_snprintf truncation: at most `n - 1` characters of the formatted
string are stored, always NUL-terminated (n > 0). -/
def snprintfStr (n : Nat) (s : String) : String :=
  if s.length + 1 ≤ n then s else ⟨s.data.take (n - 1)⟩

/-- Error values of grub_errno relevant to this module.  `external` stands
for an error set by a collaborator (ELF parsing, allocator, initrd helper)
and propagated verbatim. -/
inductive GrubErr where
  | badArgument (msg : String)
  | unknownOS (msg : String)
  | badOS (msg : String)
  | external (tag : Nat)
deriving DecidableEq, Repr

/-- GRUB_RELOCATOR_PREFERENCE_* of the relocator interface. -/
inductive Preference where
  | nopref
  | low
  | high
deriving DecidableEq, Repr

/-- A memory request issued to the relocator: either
grub_relocator_alloc_chunk_addr (fixed physical address) or
grub_relocator_alloc_chunk_align (range + alignment + preference). -/
inductive AllocRequest where
  | fixedAt (phys : Nat) (size : Nat)
  | inRange (minAddr maxAddr size alignment : Nat) (pref : Preference)
deriving DecidableEq, Repr

/-- The ELF class discriminant (grub_elf_is_elf32 / grub_elf_is_elf64). -/
inductive ElfClass where
  | c32
  | c64
  | other
deriving DecidableEq, Repr

/-- ET_EXEC of elf.h. -/
def ET_EXEC : Nat := 2

/-- The data the loader reads from an opened ELF file: the e_type field,
the class, the e_entry header fields of either width, and the
(size, base) results of grub_elf32_size / grub_elf64_size (span = 0 means
the collaborator failed and set grub_errno). -/
structure ElfImage where
  eType : Nat
  cls : ElfClass
  entry32 : Nat
  entry64 : Nat
  base32 : Nat
  span32 : Nat
  base64 : Nat
  span64 : Nat
deriving DecidableEq, Repr

/-- One string store into the argument blob: the bytes of `str` followed by
a NUL terminator are written at byte offset `off` from the blob base
(so `str.length + 1` bytes starting at `off`). -/
structure ArgWrite where
  off : Nat
  str : String
deriving DecidableEq, Repr

/-- The content of the argument blob chunk, recorded symbolically:
the pointer-table slot values in table order, the string stores performed,
and the two recorded byte offsets of the reserved rd_start/rd_size regions. -/
structure BlobLayout where
  slots : List Nat
  strWrites : List ArgWrite
  rdAddrOff : Nat
  rdSizeOff : Nat
deriving DecidableEq, Repr

/-- The module-level mutable state of linux.c (lines 41-50), plus the
registration performed via grub_loader_set / grub_loader_unset and the
symbolic blob content. -/
structure LoaderState where
  loaded : Bool
  loaderSet : Bool
  initrdLoaded : Bool
  linuxArgc : Nat
  linuxArgsAddr : Nat
  rdAddrOff : Nat
  rdSizeOff : Nat
  entryAddr : Nat
  targetAddr : Nat
  linuxSize : Nat
  blob : Option BlobLayout
deriving DecidableEq, Repr

/-- The initial state: nothing loaded. -/
def initState : LoaderState :=
  { loaded := false, loaderSet := false, initrdLoaded := false,
    linuxArgc := 0, linuxArgsAddr := 0, rdAddrOff := 0, rdSizeOff := 0,
    entryAddr := 0, targetAddr := 0, linuxSize := 0, blob := none }

/-- Result of one command: the new module state, the allocator requests
issued (in order), and the error returned (none = GRUB_ERR_NONE). -/
structure CmdOutcome where
  st : LoaderState
  allocs : List AllocRequest
  err : Option GrubErr
deriving DecidableEq, Repr

/- ------------------------------------------------------------------ -/
/- Size computation of grub_cmd_linux, lines 178-197.                  -/
/- ------------------------------------------------------------------ -/

/-- `align4 (len + 1)` summed over a list of argument strings
(the loop at lines 190-191). -/
def sumAligns (l : List String) : Nat :=
  (l.map fun a => align4 (a.length + 1)).sum

/-- The size computation of lines 181-197 carried out in 32-bit machine
arithmetic (the C variable `size` is an `int`; each addition is reduced
mod 2^32, i.e. two's-complement wraparound of the bit pattern).
`argv` is the full argument vector including the filename argv[0];
sizeof "a0" = 3, sizeof "rd_start=0xXXXXXXXXXXXXXXXX" = 28,
sizeof "rd_size=0xXXXXXXXXXXXXXXXX" = 27. -/
def argBlobSizeM (argv : List String) : Nat :=
  let s0 := argv.length * 4 % M32
  let s1 := (s0 + 2 * 4) % M32
  let s2 := (s1 + 4) % M32
  let s3 := (s2 + align4 3) % M32
  let s4 := argv.tail.foldl (fun s a => (s + align4 (a.length + 1)) % M32) s3
  let s5 := (s4 + align4 28) % M32
  let s6 := (s5 + align4 27) % M32
  align8 s6 % M32

/-- The same sum carried out in unbounded arithmetic (what the code would
compute if `int` could not overflow), before the final 8-alignment. -/
def preSum (argv : List String) : Nat :=
  argv.length * 4 + 2 * 4 + 4 + align4 3 + sumAligns argv.tail
    + align4 28 + align4 27

/-- The size formula exactly as the claim states it:
(argc + 1 terminator + 2 reserved ramdisk slots) * 4, plus align4(sizeof
"a0"), plus the per-argument aligned lengths, plus align4(28) and
align4(27), the total rounded up to a multiple of 8. -/
def claimSize (argv : List String) : Nat :=
  align8 ((argv.length + 1 + 2) * 4 + align4 3 + sumAligns argv.tail
    + align4 28 + align4 27)

/- ------------------------------------------------------------------ -/
/- Blob construction of grub_cmd_linux, lines 223-250.                 -/
/- ------------------------------------------------------------------ -/

/-- Byte size of the pointer table: (argc + 1 + 2) 32-bit slots
(line 224). -/
def tableBytes (argc : Nat) : Nat := (argc + 1 + 2) * 4

/-- The argument-copy loop of lines 231-237.  Starting at string-table
offset `off`, for each argument: store the string (NUL included) at `off`,
store the 32-bit truncation of its address into the next pointer slot,
advance `off` by the 4-aligned length.  Returns (slot values, string
stores, offset after the loop). -/
def argStep (addr : Nat) (off : Nat) : List String → List Nat × List ArgWrite × Nat
  | [] => ([], [], off)
  | a :: rest =>
      let r := argStep addr (off + align4 (a.length + 1)) rest
      (((addr + off) % M32) :: r.1, ⟨off, a⟩ :: r.2.1, r.2.2)

/-- The successive string-table offsets produced by the copy loop. -/
def argOffsets (off : Nat) : List String → List Nat
  | [] => []
  | a :: rest => off :: argOffsets (off + align4 (a.length + 1)) rest

/-- Blob construction, lines 223-250: the "a0" literal is stored first
(slot 0), then the arguments argv[1..], then the two rd regions are
reserved (their pointer slots set to 0) and the terminator slot is set
to 0.  `addr` is the virtual address of the allocated chunk
(linux_args_addr). -/
def buildBlob (argv : List String) (addr : Nat) : BlobLayout :=
  let t := tableBytes argv.length
  let r := argStep addr (t + align4 3) argv.tail
  { slots := ((addr + t) % M32) :: r.1 ++ [0, 0, 0]
    strWrites := ⟨t, "a0"⟩ :: r.2.1
    rdAddrOff := r.2.2
    rdSizeOff := r.2.2 + align4 28 }

/- ------------------------------------------------------------------ -/
/- grub_linux_load32 / grub_linux_load64, lines 81-147.                -/
/- ------------------------------------------------------------------ -/

/-- Oracle inputs for one grub_cmd_linux call: the result of
grub_elf_open, grub_vtop, and the success/failure of the relocator and
segment-loading collaborators together with the grub_errno values they
set on failure. -/
structure LinuxEnv where
  openResult : Option ElfImage
  openErr : GrubErr
  vtop : Nat → Nat
  relocatorOk : Bool
  relocErr : GrubErr
  kernelChunkOk : Bool
  kernelChunkErr : GrubErr
  elfSizeErr : GrubErr
  elfLoadOk : Bool
  elfLoadErr : GrubErr
  blobChunk : Option Nat
  blobAllocErr : GrubErr

/-- Outcome of grub_linux_load32/64: updated state, allocator requests,
error. -/
structure LoadOutcome where
  st : LoaderState
  allocs : List AllocRequest
  err : Option GrubErr
deriving DecidableEq, Repr

/-- grub_linux_load32, lines 81-113: record e_entry (untranslated), get
(size, base) from grub_elf32_size, fail if the size is zero, record the
base and the 8-aligned size, create the relocator, request a chunk fixed
at grub_vtop(base), and delegate segment loading. -/
def grub_linux_load32 (env : LinuxEnv) (st : LoaderState) (elf : ElfImage) :
    LoadOutcome :=
  let st := { st with entryAddr := elf.entry32 }
  if elf.span32 = 0 then ⟨st, [], some env.elfSizeErr⟩
  else
    let st := { st with targetAddr := elf.base32, linuxSize := align8 elf.span32 }
    if env.relocatorOk then
      let req := AllocRequest.fixedAt (env.vtop elf.base32) (align8 elf.span32)
      if env.kernelChunkOk then
        if env.elfLoadOk then ⟨st, [req], none⟩
        else ⟨st, [req], some env.elfLoadErr⟩
      else ⟨st, [req], some env.kernelChunkErr⟩
    else ⟨st, [], some env.relocErr⟩

/-- grub_linux_load64, lines 115-147: identical to grub_linux_load32 but
reading the 64-bit header fields. -/
def grub_linux_load64 (env : LinuxEnv) (st : LoaderState) (elf : ElfImage) :
    LoadOutcome :=
  let st := { st with entryAddr := elf.entry64 }
  if elf.span64 = 0 then ⟨st, [], some env.elfSizeErr⟩
  else
    let st := { st with targetAddr := elf.base64, linuxSize := align8 elf.span64 }
    if env.relocatorOk then
      let req := AllocRequest.fixedAt (env.vtop elf.base64) (align8 elf.span64)
      if env.kernelChunkOk then
        if env.elfLoadOk then ⟨st, [req], none⟩
        else ⟨st, [req], some env.elfLoadErr⟩
      else ⟨st, [req], some env.kernelChunkErr⟩
    else ⟨st, [], some env.relocErr⟩

/- ------------------------------------------------------------------ -/
/- grub_cmd_linux, lines 149-258.                                      -/
/- ------------------------------------------------------------------ -/

/-- grub_cmd_linux: argument check, ELF open, e_type check, reset of the
previous loader, size computation, class dispatch to load32/load64,
argument-chunk request (range [0, (0xffffffff - size) + 1], alignment 8,
HIGH preference), blob construction, loader registration. -/
def grub_cmd_linux (env : LinuxEnv) (st : LoaderState) (argv : List String) :
    CmdOutcome :=
  if argv.length = 0 then
    ⟨st, [], some (.badArgument "filename expected")⟩
  else
    match env.openResult with
    | none => ⟨st, [], some env.openErr⟩
    | some elf =>
      if elf.eType ≠ ET_EXEC then
        ⟨st, [], some (.unknownOS "this ELF file is not of the right type")⟩
      else
        let st1 := { st with loaded := false, loaderSet := false,
                             linuxArgc := argv.length }
        let size := argBlobSizeM argv
        let lo :=
          match elf.cls with
          | .c32 => grub_linux_load32 env st1 elf
          | .c64 => grub_linux_load64 env st1 elf
          | .other => ⟨st1, [], some (.badOS "invalid arch-dependent ELF magic")⟩
        match lo.err with
        | some e => ⟨lo.st, lo.allocs, some e⟩
        | none =>
          let req := AllocRequest.inRange 0 (maxStart32 size)
                       (int32ToSizeT size) 8 .high
          match env.blobChunk with
          | none => ⟨lo.st, lo.allocs ++ [req], some env.blobAllocErr⟩
          | some addr =>
            let b := buildBlob argv addr
            ⟨{ lo.st with linuxArgsAddr := addr, blob := some b,
                          rdAddrOff := b.rdAddrOff, rdSizeOff := b.rdSizeOff,
                          loaderSet := true, initrdLoaded := false,
                          loaded := true },
              lo.allocs ++ [req], none⟩

/- ------------------------------------------------------------------ -/
/- grub_cmd_initrd, lines 260-318.                                     -/
/- ------------------------------------------------------------------ -/

/-- Oracle inputs for one grub_cmd_initrd call: success/failure of
grub_initrd_init, the combined size from grub_get_initrd_size, the
allocator result for the initrd chunk, and the success/failure of
grub_initrd_load, with the grub_errno values set on failure. -/
structure InitrdEnv where
  initOk : Bool
  initErr : GrubErr
  rdSize : Nat
  chunk : Option Nat
  allocErr : GrubErr
  loadOk : Bool
  loadErr : GrubErr
deriving Repr

/-- grub_cmd_initrd: argument check, loaded check, duplicate check,
initrd helper init, initrd chunk request (range
[0, (0xffffffff - size) + 1], alignment 0x10000, HIGH preference),
payload load, then the two snprintf stores into the reserved blob regions
and the two pointer-table slot stores at positions linux_argc and
linux_argc + 1, incrementing linux_argc after each. -/
def grub_cmd_initrd (env : InitrdEnv) (st : LoaderState) (argv : List String) :
    CmdOutcome :=
  if argv.length = 0 then
    ⟨st, [], some (.badArgument "filename expected")⟩
  else if st.loaded = false then
    ⟨st, [], some (.badArgument "you need to load the kernel first")⟩
  else if st.initrdLoaded then
    ⟨st, [], some (.badArgument "only one initrd command can be issued.")⟩
  else if env.initOk = false then
    ⟨st, [], some env.initErr⟩
  else
    let size := env.rdSize
    let req := AllocRequest.inRange 0 (maxStart64 size) size 65536 .high
    match env.chunk with
    | none => ⟨st, [req], some env.allocErr⟩
    | some dest =>
      if env.loadOk = false then ⟨st, [req], some env.loadErr⟩
      else
        let startStr := snprintfStr 28 ("rd_start=0x" ++ hexStr (dest % M64))
        let sizeStr := snprintfStr 28 ("rd_size=0x" ++ hexStr (size % M64))
        let v1 := (st.linuxArgsAddr + st.rdAddrOff) % M32
        let v2 := (st.linuxArgsAddr + st.rdSizeOff) % M32
        let blobNew := st.blob.map fun b =>
          { b with
            slots := (b.slots.set st.linuxArgc v1).set (st.linuxArgc + 1) v2
            strWrites := b.strWrites
              ++ [⟨st.rdAddrOff, startStr⟩, ⟨st.rdSizeOff, sizeStr⟩] }
        ⟨{ st with blob := blobNew, linuxArgc := st.linuxArgc + 2,
                   initrdLoaded := true },
          [req], none⟩

/- ------------------------------------------------------------------ -/
/- grub_linux_boot, lines 52-68.                                       -/
/- ------------------------------------------------------------------ -/

/-- The register state handed to grub_relocator64_boot: all general
purpose registers zeroed by grub_memset, then gpr[1] := entry_addr,
gpr[4] := linux_argc, gpr[5] := linux_args_addr, jumpreg := 1. -/
structure Relocator64State where
  gpr : Nat → Nat
  jumpreg : Nat

/-- grub_linux_boot builds the register state from the module state. -/
def grub_linux_boot (st : LoaderState) : Relocator64State :=
  { gpr := fun i =>
      if i = 1 then st.entryAddr
      else if i = 4 then st.linuxArgc
      else if i = 5 then st.linuxArgsAddr
      else 0
    jumpreg := 1 }

/-- grub_linux_unload, lines 70-79. -/
def grub_linux_unload (st : LoaderState) : LoaderState :=
  { st with loaded := false }

/- ================================================================== -/
/- Arithmetic lemmas.                                                  -/
/- ================================================================== -/

theorem le_align4 (x : Nat) : x ≤ align4 x := by
  unfold align4; omega

theorem align4_lt (x : Nat) : align4 x < x + 4 := by
  unfold align4; omega

theorem dvd_align4 (x : Nat) : 4 ∣ align4 x := ⟨(x + 3) / 4, Nat.mul_comm _ _⟩

theorem le_align8 (x : Nat) : x ≤ align8 x := by
  unfold align8; omega

theorem align8_lt (x : Nat) : align8 x < x + 8 := by
  unfold align8; omega

theorem dvd_align8 (x : Nat) : 8 ∣ align8 x := ⟨(x + 7) / 8, Nat.mul_comm _ _⟩

/- ================================================================== -/
/- Structure of the copy loop.                                         -/
/- ================================================================== -/

theorem argStep_fst (addr : Nat) : ∀ (l : List String) (off : Nat),
    (argStep addr off l).1 = (argOffsets off l).map fun o => (addr + o) % M32
  | [], _ => rfl
  | a :: rest, off => by
      simp only [argStep, argOffsets, List.map_cons]
      exact congrArg _ (argStep_fst addr rest _)

theorem argStep_writes (addr : Nat) : ∀ (l : List String) (off : Nat),
    (argStep addr off l).2.1 = List.zipWith ArgWrite.mk (argOffsets off l) l
  | [], _ => rfl
  | a :: rest, off => by
      simp only [argStep, argOffsets, List.zipWith_cons_cons]
      exact congrArg _ (argStep_writes addr rest _)

theorem argStep_final (addr : Nat) : ∀ (l : List String) (off : Nat),
    (argStep addr off l).2.2 = off + sumAligns l
  | [], off => by simp [argStep, sumAligns]
  | a :: rest, off => by
      simp only [argStep, sumAligns, List.map_cons, List.sum_cons]
      rw [argStep_final addr rest]
      simp only [sumAligns]
      omega

theorem argOffsets_length : ∀ (l : List String) (off : Nat),
    (argOffsets off l).length = l.length
  | [], _ => rfl
  | a :: rest, off => by
      simp only [argOffsets, List.length_cons]
      exact congrArg _ (argOffsets_length rest _)

theorem argOffsets_dvd : ∀ (l : List String) (off : Nat), 4 ∣ off →
    ∀ o ∈ argOffsets off l, 4 ∣ o
  | [], _, _ => by simp [argOffsets]
  | a :: rest, off, h => by
      simp only [argOffsets, List.mem_cons]
      rintro o (rfl | ho)
      · exact h
      · exact argOffsets_dvd rest _ (Nat.dvd_add h (dvd_align4 _)) o ho

/-- Every write of the copy loop lies within the space the size
computation reserved for the loop: its aligned extent fits between its
offset and `off + sumAligns l`. -/
theorem argWrites_bounds : ∀ (l : List String) (off : Nat),
    ∀ w ∈ List.zipWith ArgWrite.mk (argOffsets off l) l,
      off ≤ w.off ∧ w.off + align4 (w.str.length + 1) ≤ off + sumAligns l
  | [], _ => by simp [argOffsets]
  | a :: rest, off => by
      simp only [argOffsets, List.zipWith_cons_cons, List.mem_cons]
      rintro w (rfl | hw)
      · refine ⟨Nat.le_refl _, ?_⟩
        simp only [sumAligns, List.map_cons, List.sum_cons]
        omega
      · have h := argWrites_bounds rest (off + align4 (a.length + 1)) w hw
        simp only [sumAligns, List.map_cons, List.sum_cons] at h ⊢
        omega

/- ================================================================== -/
/- Structure of the size computation.                                  -/
/- ================================================================== -/

theorem foldl_mod (l : List String) : ∀ s : Nat,
    l.foldl (fun s a => (s + align4 (a.length + 1)) % M32) (s % M32)
      = (s + sumAligns l) % M32 := by
  induction l with
  | nil => intro s; simp [sumAligns]
  | cons a rest ih =>
      intro s
      simp only [List.foldl_cons, sumAligns, List.map_cons, List.sum_cons]
      rw [Nat.mod_add_mod, ih (s + align4 (a.length + 1))]
      simp only [sumAligns, Nat.add_assoc]

/-- The machine size computation equals the unbounded sum reduced mod
2^32, 8-aligned, reduced mod 2^32. -/
theorem argBlobSizeM_eq (argv : List String) :
    argBlobSizeM argv = align8 (preSum argv % M32) % M32 := by
  simp only [argBlobSizeM]
  simp only [Nat.mod_add_mod]
  rw [foldl_mod]
  simp only [Nat.mod_add_mod, preSum]
  congr 2
  rw [Nat.add_assoc, Nat.mod_add_mod, Nat.add_assoc]
  congr 1

/-- When the unbounded sum fits comfortably below 2^31 the machine
computation does not wrap. -/
theorem argBlobSizeM_of_small (argv : List String)
    (h : preSum argv < 2147483648) :
    argBlobSizeM argv = align8 (preSum argv) := by
  have h1 : preSum argv % M32 = preSum argv :=
    Nat.mod_eq_of_lt (by unfold M32; omega)
  have h2 := align8_lt (preSum argv)
  rw [argBlobSizeM_eq, h1, Nat.mod_eq_of_lt (by unfold M32; omega)]

/-- The claim formula is the 8-aligned unbounded sum. -/
theorem claimSize_eq (argv : List String) :
    claimSize argv = align8 (preSum argv) := by
  unfold claimSize preSum
  ring_nf

/-- Decomposition of the unbounded sum into table bytes, the "a0" slot,
the argument strings and the two 28-byte reserved regions. -/
theorem preSum_decomp (argv : List String) :
    preSum argv = tableBytes argv.length + align4 3 + sumAligns argv.tail
      + align4 28 + align4 27 := by
  unfold preSum tableBytes
  ring_nf

/- ================================================================== -/
/- Path lemmas for grub_cmd_linux and grub_cmd_initrd.                 -/
/- ================================================================== -/

/-- The outcome of grub_cmd_linux on the fully successful 64-bit path. -/
theorem cmd_linux_success64 (env : LinuxEnv) (st : LoaderState)
    (argv : List String) (elf : ElfImage) (addr : Nat)
    (h1 : argv.length ≠ 0) (h2 : env.openResult = some elf)
    (h3 : elf.eType = ET_EXEC) (h4 : elf.cls = .c64) (h5 : elf.span64 ≠ 0)
    (h6 : env.relocatorOk = true) (h7 : env.kernelChunkOk = true)
    (h8 : env.elfLoadOk = true) (h9 : env.blobChunk = some addr) :
    grub_cmd_linux env st argv =
      ⟨{ st with loaded := true, loaderSet := true, initrdLoaded := false,
                 linuxArgc := argv.length, linuxArgsAddr := addr,
                 blob := some (buildBlob argv addr),
                 rdAddrOff := (buildBlob argv addr).rdAddrOff,
                 rdSizeOff := (buildBlob argv addr).rdSizeOff,
                 entryAddr := elf.entry64, targetAddr := elf.base64,
                 linuxSize := align8 elf.span64 },
        [.fixedAt (env.vtop elf.base64) (align8 elf.span64),
         .inRange 0 (maxStart32 (argBlobSizeM argv))
           (int32ToSizeT (argBlobSizeM argv)) 8 .high],
        none⟩ := by
  unfold grub_cmd_linux
  rw [if_neg h1, h2]
  simp only [h3, h4, h9, ne_eq, not_true_eq_false, if_false, ite_false]
  unfold grub_linux_load64
  rw [if_neg h5, if_pos h6, if_pos h7, if_pos h8]
  rfl

/-- The outcome of grub_cmd_linux on the fully successful 32-bit path. -/
theorem cmd_linux_success32 (env : LinuxEnv) (st : LoaderState)
    (argv : List String) (elf : ElfImage) (addr : Nat)
    (h1 : argv.length ≠ 0) (h2 : env.openResult = some elf)
    (h3 : elf.eType = ET_EXEC) (h4 : elf.cls = .c32) (h5 : elf.span32 ≠ 0)
    (h6 : env.relocatorOk = true) (h7 : env.kernelChunkOk = true)
    (h8 : env.elfLoadOk = true) (h9 : env.blobChunk = some addr) :
    grub_cmd_linux env st argv =
      ⟨{ st with loaded := true, loaderSet := true, initrdLoaded := false,
                 linuxArgc := argv.length, linuxArgsAddr := addr,
                 blob := some (buildBlob argv addr),
                 rdAddrOff := (buildBlob argv addr).rdAddrOff,
                 rdSizeOff := (buildBlob argv addr).rdSizeOff,
                 entryAddr := elf.entry32, targetAddr := elf.base32,
                 linuxSize := align8 elf.span32 },
        [.fixedAt (env.vtop elf.base32) (align8 elf.span32),
         .inRange 0 (maxStart32 (argBlobSizeM argv))
           (int32ToSizeT (argBlobSizeM argv)) 8 .high],
        none⟩ := by
  unfold grub_cmd_linux
  rw [if_neg h1, h2]
  simp only [h3, h4, h9, ne_eq, not_true_eq_false, if_false, ite_false]
  unfold grub_linux_load32
  rw [if_neg h5, if_pos h6, if_pos h7, if_pos h8]
  rfl

/-- The outcome of grub_cmd_initrd on the fully successful path. -/
theorem cmd_initrd_success (env : InitrdEnv) (st : LoaderState)
    (argv : List String) (dest : Nat)
    (h1 : argv.length ≠ 0) (h2 : st.loaded = true)
    (h3 : st.initrdLoaded = false) (h4 : env.initOk = true)
    (h5 : env.chunk = some dest) (h6 : env.loadOk = true) :
    grub_cmd_initrd env st argv =
      ⟨{ st with linuxArgc := st.linuxArgc + 2, initrdLoaded := true,
                 blob := st.blob.map fun b =>
                   { b with
                     slots := (b.slots.set st.linuxArgc
                         ((st.linuxArgsAddr + st.rdAddrOff) % M32)).set
                       (st.linuxArgc + 1)
                       ((st.linuxArgsAddr + st.rdSizeOff) % M32)
                     strWrites := b.strWrites
                       ++ [⟨st.rdAddrOff,
                             snprintfStr 28 ("rd_start=0x" ++ hexStr (dest % M64))⟩,
                           ⟨st.rdSizeOff,
                             snprintfStr 28 ("rd_size=0x" ++ hexStr (env.rdSize % M64))⟩] } },
        [.inRange 0 (maxStart64 env.rdSize) env.rdSize 65536 .high],
        none⟩ := by
  unfold grub_cmd_initrd
  rw [if_neg h1, h2, h3, h4, h5]
  simp only [Bool.false_eq_true, Bool.true_eq_false, if_false, ite_false, h6]

/-- grub_cmd_initrd never decreases linux_argc. -/
theorem cmd_initrd_argc_mono (env : InitrdEnv) (st : LoaderState)
    (argv : List String) :
    st.linuxArgc ≤ (grub_cmd_initrd env st argv).st.linuxArgc := by
  unfold grub_cmd_initrd
  repeat' split
  all_goals simp

/- ================================================================== -/
/- Further structural lemmas.                                          -/
/- ================================================================== -/

theorem zipWith_mk_off_mem : ∀ (l : List String) (off : Nat),
    ∀ w ∈ List.zipWith ArgWrite.mk (argOffsets off l) l, w.off ∈ argOffsets off l
  | [], _ => by simp [argOffsets]
  | a :: rest, off => by
      simp only [argOffsets, List.zipWith_cons_cons, List.mem_cons]
      rintro w (rfl | hw)
      · exact Or.inl rfl
      · exact Or.inr (zipWith_mk_off_mem rest _ w hw)

theorem sumAligns_replicate (n : Nat) (s : String) :
    sumAligns (List.replicate n s) = n * align4 (s.length + 1) := by
  unfold sumAligns
  rw [List.map_replicate, List.sum_replicate, smul_eq_mul]

theorem hexCharsAux_length_le : ∀ (fuel n k : Nat), n < 16 ^ k →
    (hexCharsAux fuel n).length ≤ k
  | 0, _, _, _ => Nat.zero_le _
  | _ + 1, 0, _, _ => Nat.zero_le _
  | fuel + 1, n + 1, k, h => by
      cases k with
      | zero => omega
      | succ j =>
          have hdiv : (n + 1) / 16 < 16 ^ j := by
            rw [Nat.div_lt_iff_lt_mul (by omega)]
            calc n + 1 < 16 ^ (j + 1) := h
            _ = 16 ^ j * 16 := by ring
          have := hexCharsAux_length_le fuel ((n + 1) / 16) j hdiv
          simp only [hexCharsAux, List.length_append, List.length_cons,
            List.length_nil]
          omega

theorem hexStr_length_le (n : Nat) (h : n < M64) : (hexStr n).length ≤ 16 := by
  unfold hexStr
  split
  · decide
  · have hk : n < 16 ^ 16 := by unfold M64 at h; omega
    have := hexCharsAux_length_le n n 16 hk
    simpa [String.length_mk] using this

/-- No truncation happens in the two grub_snprintf calls of
grub_cmd_initrd: the formatted strings fit their 28-byte bound. -/
theorem snprintf_rd_start_eq (dest : Nat) (h : dest < M64) :
    snprintfStr 28 ("rd_start=0x" ++ hexStr dest) = "rd_start=0x" ++ hexStr dest := by
  have h1 := hexStr_length_le dest h
  have h2 : ("rd_start=0x" ++ hexStr dest).length = 11 + (hexStr dest).length := by
    rw [String.length_append]
    congr 1
  unfold snprintfStr
  rw [if_pos (by omega)]

theorem snprintf_rd_size_eq (sz : Nat) (h : sz < M64) :
    snprintfStr 28 ("rd_size=0x" ++ hexStr sz) = "rd_size=0x" ++ hexStr sz := by
  have h1 := hexStr_length_le sz h
  have h2 : ("rd_size=0x" ++ hexStr sz).length = 10 + (hexStr sz).length := by
    rw [String.length_append]
    congr 1
  unfold snprintfStr
  rw [if_pos (by omega)]

/- ================================================================== -/
/- Claim theorems.                                                     -/
/- ================================================================== -/

/-- C7: an initrd command issued before any successful load fails with
GRUB_ERR_BAD_ARGUMENT ("you need to load the kernel first"), and a second
initrd command after a successful first one fails with the distinct
duplicate-attach error ("only one initrd command can be issued."); in both
cases the call returns with the state unchanged and no allocator request
issued. -/
theorem initrd_ordering_guards (env : InitrdEnv) (st : LoaderState)
    (argv : List String) (h : argv.length ≠ 0) :
    (st.loaded = false →
      grub_cmd_initrd env st argv =
        ⟨st, [], some (.badArgument "you need to load the kernel first")⟩) ∧
    (st.loaded = true → st.initrdLoaded = true →
      grub_cmd_initrd env st argv =
        ⟨st, [], some (.badArgument "only one initrd command can be issued.")⟩) := by
  constructor
  · intro h2
    unfold grub_cmd_initrd
    rw [if_neg h, h2]
    simp
  · intro h2 h3
    unfold grub_cmd_initrd
    rw [if_neg h, h2, h3]
    simp

/-- C7 witness: concrete instantiation of both guard cases. -/
theorem initrd_ordering_guards_witness :
    (grub_cmd_initrd
        ⟨true, .external 0, 4096, some 8192, .external 1, true, .external 2⟩
        initState ["initrd.img"] =
      ⟨initState, [], some (.badArgument "you need to load the kernel first")⟩) ∧
    (grub_cmd_initrd
        ⟨true, .external 0, 4096, some 8192, .external 1, true, .external 2⟩
        { initState with loaded := true, initrdLoaded := true } ["initrd.img"] =
      ⟨{ initState with loaded := true, initrdLoaded := true }, [],
        some (.badArgument "only one initrd command can be issued.")⟩) :=
  ⟨(initrd_ordering_guards _ initState _ (by decide)).1 rfl,
   (initrd_ordering_guards _ _ _ (by decide)).2 rfl rfl⟩

/-- C8: for every opened image whose e_type is not ET_EXEC, grub_cmd_linux
fails with GRUB_ERR_UNKNOWN_OS ("this ELF file is not of the right type"),
issues no allocator request, and leaves the state unchanged. -/
theorem linux_wrong_type_rejected (env : LinuxEnv) (st : LoaderState)
    (argv : List String) (elf : ElfImage) (h1 : argv.length ≠ 0)
    (h2 : env.openResult = some elf) (h3 : elf.eType ≠ ET_EXEC) :
    grub_cmd_linux env st argv =
      ⟨st, [], some (.unknownOS "this ELF file is not of the right type")⟩ := by
  unfold grub_cmd_linux
  rw [if_neg h1]
  simp only [h2]
  rw [if_pos h3]

/-- C8 witness: a concrete ET_REL (e_type = 1) image is rejected without
allocation. -/
theorem linux_wrong_type_rejected_witness :
    grub_cmd_linux
        { openResult := some ⟨1, .c64, 0, 0, 0, 0, 2147549184, 131072⟩,
          openErr := .external 0, vtop := fun a => a,
          relocatorOk := true, relocErr := .external 1,
          kernelChunkOk := true, kernelChunkErr := .external 2,
          elfSizeErr := .external 3, elfLoadOk := true,
          elfLoadErr := .external 4, blobChunk := some 4096,
          blobAllocErr := .external 5 }
        initState ["vmlinux"] =
      ⟨initState, [], some (.unknownOS "this ELF file is not of the right type")⟩ :=
  linux_wrong_type_rejected _ initState _ _ (by decide) rfl (by decide)

/-- C6: every failing initrd command from the kernel-loaded, no-initrd
state (helper init failure, allocator failure, or payload load failure)
leaves the state completely unchanged: the flag stays clear, the argument
count is unchanged, the blob (hence its two zero slots) is untouched, and
the kernel remains loaded and registered. -/
theorem initrd_failure_keeps_state (env : InitrdEnv) (st : LoaderState)
    (argv : List String) (h1 : argv.length ≠ 0) (h2 : st.loaded = true)
    (h3 : st.initrdLoaded = false)
    (h4 : env.initOk = false ∨ env.chunk = none ∨ env.loadOk = false) :
    (grub_cmd_initrd env st argv).st = st ∧
    (grub_cmd_initrd env st argv).err.isSome = true ∧
    (grub_cmd_initrd env st argv).st.initrdLoaded = false ∧
    (grub_cmd_initrd env st argv).st.linuxArgc = st.linuxArgc ∧
    (grub_cmd_initrd env st argv).st.blob = st.blob ∧
    (grub_cmd_initrd env st argv).st.loaded = true := by
  have hst : (grub_cmd_initrd env st argv).st = st ∧
      (grub_cmd_initrd env st argv).err.isSome = true := by
    unfold grub_cmd_initrd
    rw [if_neg h1, h2, h3]
    simp only [Bool.true_eq_false, Bool.false_eq_true, if_false, ite_false]
    by_cases hio : env.initOk = false
    · rw [if_pos hio]; simp
    · rw [if_neg hio]
      rcases h4 with h4 | h4 | h4
      · exact absurd h4 hio
      · rw [h4]; simp
      · cases hc : env.chunk with
        | none => simp
        | some dest => rw [h4]; simp
  refine ⟨hst.1, hst.2, ?_, ?_, ?_, ?_⟩ <;> rw [hst.1]
  · exact h3
  · exact h2

/-- C6 witness: a concrete allocator failure during initrd leaves the
loaded state intact. -/
theorem initrd_failure_keeps_state_witness :
    (grub_cmd_initrd ⟨true, .external 0, 4096, none, .external 1, true, .external 2⟩
        { initState with loaded := true } ["initrd.img"]).st
      = { initState with loaded := true } ∧
    (grub_cmd_initrd ⟨true, .external 0, 4096, none, .external 1, true, .external 2⟩
        { initState with loaded := true } ["initrd.img"]).err.isSome = true :=
  ⟨(initrd_failure_keeps_state _ _ _ (by decide) rfl rfl (Or.inr (Or.inl rfl))).1,
   (initrd_failure_keeps_state _ _ _ (by decide) rfl rfl (Or.inr (Or.inl rfl))).2.1⟩

/-- C10: for a valid image of either width class, the loader records the
image's self-declared base as target_addr and the 8-aligned minimal
segment span as linux_size, requests the kernel chunk fixed at the
physical translation of that base, and the 32-bit and 64-bit routines
produce identical outcomes on images with the same logical layout. -/
theorem load_placement (env : LinuxEnv) (st : LoaderState) (elf : ElfImage) :
    (elf.span32 ≠ 0 →
      (grub_linux_load32 env st elf).st.targetAddr = elf.base32 ∧
      (grub_linux_load32 env st elf).st.linuxSize = align8 elf.span32 ∧
      8 ∣ (grub_linux_load32 env st elf).st.linuxSize ∧
      (env.relocatorOk = true →
        (grub_linux_load32 env st elf).allocs
          = [.fixedAt (env.vtop elf.base32) (align8 elf.span32)])) ∧
    (elf.span64 ≠ 0 →
      (grub_linux_load64 env st elf).st.targetAddr = elf.base64 ∧
      (grub_linux_load64 env st elf).st.linuxSize = align8 elf.span64 ∧
      8 ∣ (grub_linux_load64 env st elf).st.linuxSize ∧
      (env.relocatorOk = true →
        (grub_linux_load64 env st elf).allocs
          = [.fixedAt (env.vtop elf.base64) (align8 elf.span64)])) ∧
    (elf.base32 = elf.base64 → elf.span32 = elf.span64 →
      elf.entry32 = elf.entry64 →
      grub_linux_load32 env st elf = grub_linux_load64 env st elf) := by
  refine ⟨?_, ?_, ?_⟩
  · intro h5
    unfold grub_linux_load32
    rw [if_neg h5]
    by_cases h6 : env.relocatorOk = true
    · rw [if_pos h6]
      by_cases h7 : env.kernelChunkOk = true
      · rw [if_pos h7]
        by_cases h8 : env.elfLoadOk = true
        · rw [if_pos h8]; exact ⟨rfl, rfl, dvd_align8 _, fun _ => rfl⟩
        · rw [if_neg h8]; exact ⟨rfl, rfl, dvd_align8 _, fun _ => rfl⟩
      · rw [if_neg h7]; exact ⟨rfl, rfl, dvd_align8 _, fun _ => rfl⟩
    · rw [if_neg h6]
      exact ⟨rfl, rfl, dvd_align8 _, fun hc => absurd hc h6⟩
  · intro h5
    unfold grub_linux_load64
    rw [if_neg h5]
    by_cases h6 : env.relocatorOk = true
    · rw [if_pos h6]
      by_cases h7 : env.kernelChunkOk = true
      · rw [if_pos h7]
        by_cases h8 : env.elfLoadOk = true
        · rw [if_pos h8]; exact ⟨rfl, rfl, dvd_align8 _, fun _ => rfl⟩
        · rw [if_neg h8]; exact ⟨rfl, rfl, dvd_align8 _, fun _ => rfl⟩
      · rw [if_neg h7]; exact ⟨rfl, rfl, dvd_align8 _, fun _ => rfl⟩
    · rw [if_neg h6]
      exact ⟨rfl, rfl, dvd_align8 _, fun hc => absurd hc h6⟩
  · intro hb hs he
    unfold grub_linux_load32 grub_linux_load64
    rw [hb, hs, he]

/-- C10 witness: the concrete scenario of the spec (base 0x80010000,
span 0x20000) in both width classes. -/
theorem load_placement_witness :
    ((131072 : Nat) ≠ 0 ∧
      (grub_linux_load64
        { openResult := some ⟨2, .c64, 2147549184, 2147549184, 2147549184,
            131072, 2147549184, 131072⟩,
          openErr := .external 0, vtop := fun a => a % 536870912,
          relocatorOk := true, relocErr := .external 1,
          kernelChunkOk := true, kernelChunkErr := .external 2,
          elfSizeErr := .external 3, elfLoadOk := true,
          elfLoadErr := .external 4, blobChunk := some 4096,
          blobAllocErr := .external 5 }
        initState ⟨2, .c64, 2147549184, 2147549184, 2147549184, 131072,
          2147549184, 131072⟩).st.targetAddr = 2147549184) ∧
    grub_linux_load32
        { openResult := some ⟨2, .c64, 2147549184, 2147549184, 2147549184,
            131072, 2147549184, 131072⟩,
          openErr := .external 0, vtop := fun a => a % 536870912,
          relocatorOk := true, relocErr := .external 1,
          kernelChunkOk := true, kernelChunkErr := .external 2,
          elfSizeErr := .external 3, elfLoadOk := true,
          elfLoadErr := .external 4, blobChunk := some 4096,
          blobAllocErr := .external 5 }
        initState ⟨2, .c64, 2147549184, 2147549184, 2147549184, 131072,
          2147549184, 131072⟩
      = grub_linux_load64
        { openResult := some ⟨2, .c64, 2147549184, 2147549184, 2147549184,
            131072, 2147549184, 131072⟩,
          openErr := .external 0, vtop := fun a => a % 536870912,
          relocatorOk := true, relocErr := .external 1,
          kernelChunkOk := true, kernelChunkErr := .external 2,
          elfSizeErr := .external 3, elfLoadOk := true,
          elfLoadErr := .external 4, blobChunk := some 4096,
          blobAllocErr := .external 5 }
        initState ⟨2, .c64, 2147549184, 2147549184, 2147549184, 131072,
          2147549184, 131072⟩ :=
  ⟨⟨by decide, ((load_placement _ initState _).2.1 (by decide)).1⟩,
   (load_placement _ initState _).2.2 rfl rfl rfl⟩

theorem argOffsets_le : ∀ (l : List String) (off : Nat),
    ∀ o ∈ argOffsets off l, o ≤ off + sumAligns l
  | [], _ => by simp [argOffsets]
  | a :: rest, off => by
      simp only [argOffsets, List.mem_cons]
      rintro o (rfl | ho)
      · exact Nat.le_add_right _ _
      · have h := argOffsets_le rest (off + align4 (a.length + 1)) o ho
        simp only [sumAligns, List.map_cons, List.sum_cons] at h ⊢
        omega

/-- C3: for every non-empty argument vector the constructed blob consists
of: slot 0 holding the (32-bit) address of the literal "a0" copy stored at
offset tableBytes (never the caller's argv[0]); slots 1..argc-1 holding,
in order, the addresses of NUL-terminated copies of argv[1..] at
4-byte-aligned offsets; zeros in the two reserved ramdisk slots (table
positions argc and argc+1) and the terminator slot (position argc+2); and
rdAddrOff/rdSizeOff recording the byte offsets of the two reserved
28-byte string regions. -/
theorem blob_layout (argv : List String) (addr : Nat) (hne : argv ≠ [])
    (hal : 8 ∣ addr) :
    (buildBlob argv addr).strWrites
      = ⟨tableBytes argv.length, "a0"⟩
          :: List.zipWith ArgWrite.mk
            (argOffsets (tableBytes argv.length + align4 3) argv.tail)
            argv.tail ∧
    (buildBlob argv addr).slots
      = ((addr + tableBytes argv.length) % M32)
          :: ((argOffsets (tableBytes argv.length + align4 3) argv.tail).map
                fun o => (addr + o) % M32)
          ++ [0, 0, 0] ∧
    (buildBlob argv addr).slots.length = argv.length + 3 ∧
    (buildBlob argv addr).slots.getD argv.length 1 = 0 ∧
    (buildBlob argv addr).slots.getD (argv.length + 1) 1 = 0 ∧
    (buildBlob argv addr).slots.getD (argv.length + 2) 1 = 0 ∧
    (∀ w ∈ (buildBlob argv addr).strWrites, 4 ∣ (addr + w.off)) ∧
    (buildBlob argv addr).rdAddrOff
      = tableBytes argv.length + align4 3 + sumAligns argv.tail ∧
    (buildBlob argv addr).rdSizeOff
      = (buildBlob argv addr).rdAddrOff + align4 28 := by
  have hw : (buildBlob argv addr).strWrites
      = ⟨tableBytes argv.length, "a0"⟩
          :: List.zipWith ArgWrite.mk
            (argOffsets (tableBytes argv.length + align4 3) argv.tail)
            argv.tail := by
    simp only [buildBlob, argStep_writes]
  have hs : (buildBlob argv addr).slots
      = ((addr + tableBytes argv.length) % M32)
          :: ((argOffsets (tableBytes argv.length + align4 3) argv.tail).map
                fun o => (addr + o) % M32)
          ++ [0, 0, 0] := by
    simp only [buildBlob, argStep_fst]
  have hra : (buildBlob argv addr).rdAddrOff
      = tableBytes argv.length + align4 3 + sumAligns argv.tail := by
    simp only [buildBlob, argStep_final]
  have hrs : (buildBlob argv addr).rdSizeOff
      = (buildBlob argv addr).rdAddrOff + align4 28 := by
    simp only [buildBlob, argStep_final]
  have hlenoff : (argOffsets (tableBytes argv.length + align4 3) argv.tail).length
      = argv.tail.length := argOffsets_length _ _
  have hdvd4 : (4 : Nat) ∣ tableBytes argv.length :=
    ⟨argv.length + 1 + 2, Nat.mul_comm _ _⟩
  refine ⟨hw, hs, ?_, ?_, ?_, ?_, ?_, hra, hrs⟩
  · cases argv with
    | nil => exact absurd rfl hne
    | cons a t =>
        rw [hs]
        simp only [List.length_cons, List.length_append, List.length_map]
        rw [argOffsets_length]
        simp [List.tail_cons]
  · cases argv with
    | nil => exact absurd rfl hne
    | cons a t =>
        rw [hs]
        rw [List.getD_append_right _ _ _ _ (by simp [argOffsets_length])]
        simp [argOffsets_length]
  · cases argv with
    | nil => exact absurd rfl hne
    | cons a t =>
        rw [hs]
        rw [List.getD_append_right _ _ _ _ (by simp [argOffsets_length])]
        simp [argOffsets_length]
  · cases argv with
    | nil => exact absurd rfl hne
    | cons a t =>
        rw [hs]
        rw [List.getD_append_right _ _ _ _ (by simp [argOffsets_length])]
        simp [argOffsets_length]
  · rw [hw]
    intro w hwmem
    rcases List.mem_cons.mp hwmem with rfl | hmem
    · exact Nat.dvd_add (dvd_trans (by norm_num) hal) hdvd4
    · have hoff := zipWith_mk_off_mem argv.tail _ w hmem
      have := argOffsets_dvd argv.tail _
        (Nat.dvd_add hdvd4 (dvd_align4 3)) w.off hoff
      exact Nat.dvd_add (dvd_trans (by norm_num) hal) this

/-- C3 witness: a concrete two-argument load. -/
theorem blob_layout_witness :
    (buildBlob ["vmlinux", "root=/dev/sda"] 4294967200).strWrites
      = [⟨20, "a0"⟩, ⟨24, "root=/dev/sda"⟩] ∧
    (buildBlob ["vmlinux", "root=/dev/sda"] 4294967200).slots
      = [4294967220, 4294967224, 0, 0, 0] ∧
    (buildBlob ["vmlinux", "root=/dev/sda"] 4294967200).rdAddrOff = 40 ∧
    (buildBlob ["vmlinux", "root=/dev/sda"] 4294967200).rdSizeOff = 68 := by
  have h := blob_layout ["vmlinux", "root=/dev/sda"] 4294967200
    (by decide) (by decide)
  refine ⟨?_, ?_, ?_, ?_⟩
  · rw [h.1]; decide
  · rw [h.2.1]; decide
  · rw [h.2.2.2.2.2.2.2.1]; decide
  · rw [h.2.2.2.2.2.2.2.2, h.2.2.2.2.2.2.2.1]; decide

/-- Lower bound on the unbounded size sum: with at least one argument the
sum is at least 76 bytes. -/
theorem preSum_pos (argv : List String) (hne : argv.length ≠ 0) :
    76 ≤ preSum argv := by
  unfold preSum
  have h3 : align4 3 = 4 := by norm_num [align4]
  have h28 : align4 28 = 28 := by norm_num [align4]
  have h27 : align4 27 = 28 := by norm_num [align4]
  have : 1 ≤ argv.length := by omega
  have : 4 ≤ argv.length * 4 := by omega
  omega

/-- With a small sum the machine size is below 2^31 and both of
maxStart32 and int32ToSizeT degenerate to their mathematical values. -/
theorem maxStart32_of_small (argv : List String) (hne : argv.length ≠ 0)
    (hfit : preSum argv ≤ 2147483639) :
    argBlobSizeM argv = align8 (preSum argv) ∧
    argBlobSizeM argv < 2147483648 ∧
    76 ≤ argBlobSizeM argv ∧
    maxStart32 (argBlobSizeM argv) = 4294967295 - argBlobSizeM argv + 1 ∧
    int32ToSizeT (argBlobSizeM argv) = argBlobSizeM argv := by
  have h1 : argBlobSizeM argv = align8 (preSum argv) :=
    argBlobSizeM_of_small argv (by omega)
  have h2 : argBlobSizeM argv < 2147483648 := by
    have := align8_lt (preSum argv)
    omega
  have h3 : 76 ≤ argBlobSizeM argv := by
    have := le_align8 (preSum argv)
    have := preSum_pos argv hne
    omega
  refine ⟨h1, h2, h3, ?_, ?_⟩
  · unfold maxStart32
    rw [Nat.mod_eq_of_lt (by unfold M32; omega),
      Nat.mod_eq_of_lt (by unfold M32; omega)]
  · unfold int32ToSizeT
    rw [if_pos h2]

/-- C2: on a successful load whose size computation does not overflow and
whose allocator reply honours the requested upper bound, the argument-blob
chunk is requested with maximal start address (0xffffffff - size) + 1,
HIGH preference and the low bound 0, so every allocated byte lies below
2^32; consequently every pointer-table slot written at construction holds
the full untruncated address of its string, the two values later written
into the reserved ramdisk slots are likewise untruncated, and the ramdisk
chunk request bound has the same (0xffffffff - size) + 1 shape. -/
theorem slot_addresses_lossless (env : LinuxEnv) (st : LoaderState)
    (argv : List String) (elf : ElfImage) (addr : Nat)
    (h1 : argv.length ≠ 0) (h2 : env.openResult = some elf)
    (h3 : elf.eType = ET_EXEC) (h4 : elf.cls = .c64) (h5 : elf.span64 ≠ 0)
    (h6 : env.relocatorOk = true) (h7 : env.kernelChunkOk = true)
    (h8 : env.elfLoadOk = true) (h9 : env.blobChunk = some addr)
    (hfit : preSum argv ≤ 2147483639)
    (hcontract : addr ≤ maxStart32 (argBlobSizeM argv)) :
    (grub_cmd_linux env st argv).allocs.getD 1 (.fixedAt 0 0)
      = .inRange 0 (4294967295 - argBlobSizeM argv + 1)
          (argBlobSizeM argv) 8 .high ∧
    addr + argBlobSizeM argv ≤ M32 ∧
    (buildBlob argv addr).slots
      = (addr + tableBytes argv.length)
          :: ((argOffsets (tableBytes argv.length + align4 3) argv.tail).map
                fun o => addr + o)
          ++ [0, 0, 0] ∧
    (addr + (buildBlob argv addr).rdAddrOff) % M32
      = addr + (buildBlob argv addr).rdAddrOff ∧
    (addr + (buildBlob argv addr).rdSizeOff) % M32
      = addr + (buildBlob argv addr).rdSizeOff ∧
    (∀ sz : Nat, sz ≤ 4294967295 → maxStart64 sz = 4294967295 - sz + 1) := by
  obtain ⟨he, hlt, hge, hmax, hsz⟩ := maxStart32_of_small argv h1 hfit
  have hbound : addr + argBlobSizeM argv ≤ M32 := by
    rw [hmax] at hcontract
    unfold M32
    omega
  have hpre : preSum argv ≤ argBlobSizeM argv := by
    rw [he]; exact le_align8 _
  have hrda : (buildBlob argv addr).rdAddrOff
      = tableBytes argv.length + align4 3 + sumAligns argv.tail := by
    simp only [buildBlob, argStep_final]
  have hrds : (buildBlob argv addr).rdSizeOff
      = tableBytes argv.length + align4 3 + sumAligns argv.tail + align4 28 := by
    simp only [buildBlob, argStep_final]
  have hdecomp := preSum_decomp argv
  have h27 := le_align4 27
  refine ⟨?_, hbound, ?_, ?_, ?_, ?_⟩
  · rw [cmd_linux_success64 env st argv elf addr h1 h2 h3 h4 h5 h6 h7 h8 h9]
    simp only [List.getD_cons_succ, List.getD_cons_zero]
    rw [hmax, hsz]
  · have hslots : (buildBlob argv addr).slots
        = ((addr + tableBytes argv.length) % M32)
            :: ((argOffsets (tableBytes argv.length + align4 3) argv.tail).map
                  fun o => (addr + o) % M32)
            ++ [0, 0, 0] := by
      simp only [buildBlob, argStep_fst]
    rw [hslots]
    have htb : addr + tableBytes argv.length < M32 := by
      have : tableBytes argv.length ≤ preSum argv := by
        rw [hdecomp]; omega
      omega
    rw [Nat.mod_eq_of_lt htb]
    congr 1
    congr 1
    apply List.map_congr_left
    intro o ho
    have := argOffsets_le argv.tail _ o ho
    have : o ≤ preSum argv := by rw [hdecomp]; omega
    exact Nat.mod_eq_of_lt (by omega)
  · rw [hrda]
    apply Nat.mod_eq_of_lt
    have : tableBytes argv.length + align4 3 + sumAligns argv.tail
        ≤ preSum argv := by rw [hdecomp]; omega
    omega
  · rw [hrds]
    apply Nat.mod_eq_of_lt
    have : tableBytes argv.length + align4 3 + sumAligns argv.tail + align4 28
        ≤ preSum argv := by rw [hdecomp]; omega
    omega
  · intro sz hle
    unfold maxStart64
    have h0 : sz % M64 = sz := Nat.mod_eq_of_lt (by unfold M64; omega)
    rw [h0]
    have hsplit : 4294967295 + M64 - sz = 4294967295 - sz + M64 := by
      unfold M64; omega
    rw [hsplit, Nat.add_mod_right,
      Nat.mod_eq_of_lt (by unfold M64; omega),
      Nat.mod_eq_of_lt (by unfold M64; omega)]

/-- C2 witness: a concrete one-argument load placed right below the 4 GiB
boundary. -/
theorem slot_addresses_lossless_witness :
    (grub_cmd_linux
        { openResult := some ⟨2, .c64, 0, 2147549184, 0, 0, 2147549184, 131072⟩,
          openErr := .external 0, vtop := fun a => a,
          relocatorOk := true, relocErr := .external 1,
          kernelChunkOk := true, kernelChunkErr := .external 2,
          elfSizeErr := .external 3, elfLoadOk := true,
          elfLoadErr := .external 4, blobChunk := some 4294967216,
          blobAllocErr := .external 5 }
        initState ["vmlinux"]).allocs.getD 1 (.fixedAt 0 0)
      = .inRange 0 4294967216 80 8 .high ∧
    (buildBlob ["vmlinux"] 4294967216).slots
      = [4294967232, 0, 0, 0] := by
  have h := slot_addresses_lossless
    { openResult := some ⟨2, .c64, 0, 2147549184, 0, 0, 2147549184, 131072⟩,
      openErr := .external 0, vtop := fun a => a,
      relocatorOk := true, relocErr := .external 1,
      kernelChunkOk := true, kernelChunkErr := .external 2,
      elfSizeErr := .external 3, elfLoadOk := true,
      elfLoadErr := .external 4, blobChunk := some 4294967216,
      blobAllocErr := .external 5 }
    initState ["vmlinux"] ⟨2, .c64, 0, 2147549184, 0, 0, 2147549184, 131072⟩
    4294967216 (by decide) rfl rfl rfl (by decide) rfl rfl rfl rfl
    (by decide) (by decide)
  refine ⟨?_, ?_⟩
  · have := h.1
    rw [this]
    decide
  · have := h.2.2.1
    rw [this]
    decide

/-- A successful grub_cmd_linux implies all the oracle conditions of the
success path. -/
theorem cmd_linux_err_none (env : LinuxEnv) (st : LoaderState)
    (argv : List String) (h : (grub_cmd_linux env st argv).err = none) :
    argv.length ≠ 0 ∧ ∃ elf addr, env.openResult = some elf ∧
      elf.eType = ET_EXEC ∧ env.relocatorOk = true ∧
      env.kernelChunkOk = true ∧ env.elfLoadOk = true ∧
      env.blobChunk = some addr ∧
      ((elf.cls = .c32 ∧ elf.span32 ≠ 0) ∨ (elf.cls = .c64 ∧ elf.span64 ≠ 0)) := by
  by_cases hlen : argv.length = 0
  · unfold grub_cmd_linux at h
    rw [if_pos hlen] at h
    exact Option.noConfusion h
  · refine ⟨hlen, ?_⟩
    cases hopen : env.openResult with
    | none =>
        unfold grub_cmd_linux at h
        rw [if_neg hlen] at h
        simp only [hopen] at h
        exact Option.noConfusion h
    | some elf =>
        unfold grub_cmd_linux at h
        rw [if_neg hlen] at h
        simp only [hopen] at h
        by_cases htype : elf.eType ≠ ET_EXEC
        · rw [if_pos htype] at h
          exact Option.noConfusion h
        · rw [if_neg htype] at h
          push_neg at htype
          refine ⟨elf, ?_⟩
          cases hcls : elf.cls with
          | other =>
              simp only [hcls] at h
              exact Option.noConfusion h
          | c32 =>
              simp only [hcls] at h
              unfold grub_linux_load32 at h
              by_cases hspan : elf.span32 = 0
              · rw [if_pos hspan] at h
                exact Option.noConfusion h
              · rw [if_neg hspan] at h
                by_cases hrel : env.relocatorOk = true
                · rw [if_pos hrel] at h
                  by_cases hker : env.kernelChunkOk = true
                  · rw [if_pos hker] at h
                    by_cases hload : env.elfLoadOk = true
                    · rw [if_pos hload] at h
                      cases hblob : env.blobChunk with
                      | none =>
                          simp only [hblob] at h
                          exact Option.noConfusion h
                      | some addr =>
                          exact ⟨addr, rfl, htype, hrel, hker, hload, rfl,
                            Or.inl ⟨rfl, hspan⟩⟩
                    · rw [if_neg hload] at h
                      exact Option.noConfusion h
                  · rw [if_neg hker] at h
                    exact Option.noConfusion h
                · rw [if_neg hrel] at h
                  exact Option.noConfusion h
          | c64 =>
              simp only [hcls] at h
              unfold grub_linux_load64 at h
              by_cases hspan : elf.span64 = 0
              · rw [if_pos hspan] at h
                exact Option.noConfusion h
              · rw [if_neg hspan] at h
                by_cases hrel : env.relocatorOk = true
                · rw [if_pos hrel] at h
                  by_cases hker : env.kernelChunkOk = true
                  · rw [if_pos hker] at h
                    by_cases hload : env.elfLoadOk = true
                    · rw [if_pos hload] at h
                      cases hblob : env.blobChunk with
                      | none =>
                          simp only [hblob] at h
                          exact Option.noConfusion h
                      | some addr =>
                          exact ⟨addr, rfl, htype, hrel, hker, hload, rfl,
                            Or.inr ⟨rfl, hspan⟩⟩
                    · rw [if_neg hload] at h
                      exact Option.noConfusion h
                  · rw [if_neg hker] at h
                    exact Option.noConfusion h
                · rw [if_neg hrel] at h
                  exact Option.noConfusion h

/-- C9: grub_linux_boot hands the jump primitive a register state whose
register 1 holds entry_addr — recorded at load time exactly as encoded in
the e_entry header field, untranslated — register 4 holds the current
argument count, register 5 holds the argument blob address, the jump
register selector is 1, and every other general purpose register is 0. -/
theorem boot_register_state (env : LinuxEnv) (st : LoaderState)
    (argv : List String) (elf : ElfImage)
    (hopen : env.openResult = some elf)
    (hs : (grub_cmd_linux env st argv).err = none) :
    (∀ s : LoaderState,
      (grub_linux_boot s).jumpreg = 1 ∧
      (grub_linux_boot s).gpr 1 = s.entryAddr ∧
      (grub_linux_boot s).gpr 4 = s.linuxArgc ∧
      (grub_linux_boot s).gpr 5 = s.linuxArgsAddr ∧
      (∀ i, i ≠ 1 → i ≠ 4 → i ≠ 5 → (grub_linux_boot s).gpr i = 0)) ∧
    (elf.cls = .c32 → (grub_cmd_linux env st argv).st.entryAddr = elf.entry32) ∧
    (elf.cls = .c64 → (grub_cmd_linux env st argv).st.entryAddr = elf.entry64) ∧
    (grub_cmd_linux env st argv).st.linuxArgc = argv.length := by
  obtain ⟨h1, elf2, addr, hopen2, htype, hrel, hker, hload, hblob, hcls⟩ :=
    cmd_linux_err_none env st argv hs
  have helf : elf2 = elf := by
    rw [hopen] at hopen2; exact (Option.some.injEq _ _).mp hopen2.symm ▸ rfl
  subst helf
  have hfacts : ((elf2.cls = .c32 →
        (grub_cmd_linux env st argv).st.entryAddr = elf2.entry32) ∧
      (elf2.cls = .c64 →
        (grub_cmd_linux env st argv).st.entryAddr = elf2.entry64) ∧
      (grub_cmd_linux env st argv).st.linuxArgc = argv.length) := by
    rcases hcls with ⟨hc, hspan⟩ | ⟨hc, hspan⟩
    · rw [cmd_linux_success32 env st argv elf2 addr h1 hopen2 htype hc hspan
        hrel hker hload hblob]
      refine ⟨fun _ => rfl, fun hc64 => ?_, rfl⟩
      rw [hc] at hc64; cases hc64
    · rw [cmd_linux_success64 env st argv elf2 addr h1 hopen2 htype hc hspan
        hrel hker hload hblob]
      refine ⟨fun hc32 => ?_, fun _ => rfl, rfl⟩
      rw [hc] at hc32; cases hc32
  refine ⟨?_, hfacts.1, hfacts.2.1, hfacts.2.2⟩
  intro s
  refine ⟨rfl, rfl, rfl, rfl, ?_⟩
  intro i hi1 hi4 hi5
  unfold grub_linux_boot
  simp only
  rw [if_neg hi1, if_neg hi4, if_neg hi5]

/-- C9 witness: concrete successful 64-bit load followed by boot. -/
theorem boot_register_state_witness :
    (grub_linux_boot (grub_cmd_linux
        { openResult := some ⟨2, .c64, 0, 2147549184, 0, 0, 2147483648, 131072⟩,
          openErr := .external 0, vtop := fun a => a,
          relocatorOk := true, relocErr := .external 1,
          kernelChunkOk := true, kernelChunkErr := .external 2,
          elfSizeErr := .external 3, elfLoadOk := true,
          elfLoadErr := .external 4, blobChunk := some 4294967216,
          blobAllocErr := .external 5 }
        initState ["vmlinux"]).st).gpr 1 = 2147549184 ∧
    (grub_linux_boot (grub_cmd_linux
        { openResult := some ⟨2, .c64, 0, 2147549184, 0, 0, 2147483648, 131072⟩,
          openErr := .external 0, vtop := fun a => a,
          relocatorOk := true, relocErr := .external 1,
          kernelChunkOk := true, kernelChunkErr := .external 2,
          elfSizeErr := .external 3, elfLoadOk := true,
          elfLoadErr := .external 4, blobChunk := some 4294967216,
          blobAllocErr := .external 5 }
        initState ["vmlinux"]).st).gpr 7 = 0 := by
  have h := boot_register_state
    { openResult := some ⟨2, .c64, 0, 2147549184, 0, 0, 2147483648, 131072⟩,
      openErr := .external 0, vtop := fun a => a,
      relocatorOk := true, relocErr := .external 1,
      kernelChunkOk := true, kernelChunkErr := .external 2,
      elfSizeErr := .external 3, elfLoadOk := true,
      elfLoadErr := .external 4, blobChunk := some 4294967216,
      blobAllocErr := .external 5 }
    initState ["vmlinux"] ⟨2, .c64, 0, 2147549184, 0, 0, 2147483648, 131072⟩
    rfl (by decide)
  constructor
  · rw [(h.1 _).2.1, h.2.2.1 rfl]
  · exact (h.1 _).2.2.2.2 7 (by decide) (by decide) (by decide)

/-- C5 counterexample input: from a loaded state, a load command that
fails its argument check leaves the previous kernel loaded and
registered, not Unloaded. -/
def envC5 : LinuxEnv :=
  { openResult := none, openErr := .external 9, vtop := fun a => a,
    relocatorOk := true, relocErr := .external 1,
    kernelChunkOk := true, kernelChunkErr := .external 2,
    elfSizeErr := .external 3, elfLoadOk := true,
    elfLoadErr := .external 4, blobChunk := none,
    blobAllocErr := .external 5 }

/-- C5 counterexample: grub_cmd_linux with no argument from a loaded state
returns an error, yet the state still has loaded = true and the previous
loader registered — the system is not left in the Unloaded state the
claim requires. -/
theorem load_failure_not_unloaded_cex :
    (grub_cmd_linux envC5 { initState with loaded := true, loaderSet := true }
        []).err = some (.badArgument "filename expected") ∧
    (grub_cmd_linux envC5 { initState with loaded := true, loaderSet := true }
        []).st.loaded = true ∧
    (grub_cmd_linux envC5 { initState with loaded := true, loaderSet := true }
        []).st.loaderSet = true := by
  refine ⟨rfl, rfl, rfl⟩

/-- C5 amended: failures hit before the loader reset (missing filename,
unopenable image, wrong executable type) leave the previous state fully
unchanged — Unloaded only if it already was — while every failure at or
after the reset (unsupported class, zero span, relocator, chunk, segment
or blob-allocation failure) leaves loaded = false with no loader
registered. -/
theorem load_failure_states (env : LinuxEnv) (st : LoaderState)
    (argv : List String) :
    ((argv.length = 0 ∨ env.openResult = none ∨
        (∃ elf, env.openResult = some elf ∧ elf.eType ≠ ET_EXEC)) →
      (grub_cmd_linux env st argv).st = st) ∧
    (∀ elf, argv.length ≠ 0 → env.openResult = some elf →
      elf.eType = ET_EXEC →
      (grub_cmd_linux env st argv).err ≠ none →
      (grub_cmd_linux env st argv).st.loaded = false ∧
      (grub_cmd_linux env st argv).st.loaderSet = false) := by
  constructor
  · intro hcase
    by_cases hlen : argv.length = 0
    · unfold grub_cmd_linux
      rw [if_pos hlen]
    · rcases hcase with hcase | hcase | ⟨elf, helf, htype⟩
      · exact absurd hcase hlen
      · unfold grub_cmd_linux
        rw [if_neg hlen]
        simp only [hcase]
      · unfold grub_cmd_linux
        rw [if_neg hlen]
        simp only [helf]
        rw [if_pos htype]
  · intro elf hlen hopen htype herr
    unfold grub_cmd_linux at herr ⊢
    rw [if_neg hlen] at herr ⊢
    simp only [hopen] at herr ⊢
    rw [if_neg (not_not_intro htype)] at herr ⊢
    cases hcls : elf.cls with
    | other =>
        simp only [hcls]
        exact ⟨by trivial, by trivial⟩
    | c32 =>
        simp only [hcls] at herr ⊢
        unfold grub_linux_load32 at herr ⊢
        by_cases hspan : elf.span32 = 0
        · rw [if_pos hspan]
          exact ⟨by trivial, by trivial⟩
        · rw [if_neg hspan] at herr ⊢
          by_cases hrel : env.relocatorOk = true
          · rw [if_pos hrel] at herr ⊢
            by_cases hker : env.kernelChunkOk = true
            · rw [if_pos hker] at herr ⊢
              by_cases hload : env.elfLoadOk = true
              · rw [if_pos hload] at herr ⊢
                cases hblob : env.blobChunk with
                | none =>
                    simp only [hblob]
                    exact ⟨by trivial, by trivial⟩
                | some addr =>
                    simp only [hblob] at herr
                    exact absurd rfl herr
              · rw [if_neg hload]
                exact ⟨by trivial, by trivial⟩
            · rw [if_neg hker]
              exact ⟨by trivial, by trivial⟩
          · rw [if_neg hrel]
            exact ⟨by trivial, by trivial⟩
    | c64 =>
        simp only [hcls] at herr ⊢
        unfold grub_linux_load64 at herr ⊢
        by_cases hspan : elf.span64 = 0
        · rw [if_pos hspan]
          exact ⟨by trivial, by trivial⟩
        · rw [if_neg hspan] at herr ⊢
          by_cases hrel : env.relocatorOk = true
          · rw [if_pos hrel] at herr ⊢
            by_cases hker : env.kernelChunkOk = true
            · rw [if_pos hker] at herr ⊢
              by_cases hload : env.elfLoadOk = true
              · rw [if_pos hload] at herr ⊢
                cases hblob : env.blobChunk with
                | none =>
                    simp only [hblob]
                    exact ⟨by trivial, by trivial⟩
                | some addr =>
                    simp only [hblob] at herr
                    exact absurd rfl herr
              · rw [if_neg hload]
                exact ⟨by trivial, by trivial⟩
            · rw [if_neg hker]
              exact ⟨by trivial, by trivial⟩
          · rw [if_neg hrel]
            exact ⟨by trivial, by trivial⟩

/-- C5 witness environment: a valid 64-bit image whose blob allocation
fails. -/
def envC5b : LinuxEnv :=
  { envC5 with openResult := some ⟨2, .c64, 0, 2147549184, 0, 0, 2147483648, 131072⟩ }

/-- C5 amended-theorem witness: a blob-allocation failure after a valid
64-bit image leaves the system unloaded and unregistered. -/
theorem load_failure_states_witness :
    (grub_cmd_linux envC5b
        { initState with loaded := true, loaderSet := true }
        ["vmlinux"]).st.loaded = false ∧
    (grub_cmd_linux envC5b
        { initState with loaded := true, loaderSet := true }
        ["vmlinux"]).st.loaderSet = false :=
  (load_failure_states envC5b
      { initState with loaded := true, loaderSet := true } ["vmlinux"]).2
    ⟨2, .c64, 0, 2147549184, 0, 0, 2147483648, 131072⟩
    (by decide) rfl rfl (by decide)

/-- C4: a successful initrd attach from the kernel-loaded state formats
"rd_start=0x<hex dest>" into the blob region at rdAddrOff and
"rd_size=0x<hex size>" into the region at rdSizeOff, writes the two
(non-zero, untruncated) string addresses into the pointer-table slots at
positions linux_argc and linux_argc + 1, raises linux_argc by exactly 2
(one increment after each slot write, as the set positions show), and
linux_argc is never decreased by the initrd command. -/
theorem initrd_attach_patches (env : InitrdEnv) (st : LoaderState)
    (argv : List String) (dest : Nat) (b : BlobLayout)
    (h1 : argv.length ≠ 0) (h2 : st.loaded = true)
    (h3 : st.initrdLoaded = false) (h4 : env.initOk = true)
    (h5 : env.chunk = some dest) (h6 : env.loadOk = true)
    (hb : st.blob = some b) (hdest : dest < M64) (hsz : env.rdSize < M64)
    (haddr : st.linuxArgsAddr + st.rdSizeOff < M32)
    (hord : st.rdAddrOff ≤ st.rdSizeOff) (hpos : 0 < st.rdAddrOff)
    (hz1 : b.slots.getD st.linuxArgc 1 = 0)
    (hz2 : b.slots.getD (st.linuxArgc + 1) 1 = 0) :
    (grub_cmd_initrd env st argv).err = none ∧
    (grub_cmd_initrd env st argv).st.linuxArgc = st.linuxArgc + 2 ∧
    (grub_cmd_initrd env st argv).st.initrdLoaded = true ∧
    (grub_cmd_initrd env st argv).st.blob = some
      { b with
        slots := (b.slots.set st.linuxArgc
            (st.linuxArgsAddr + st.rdAddrOff)).set
          (st.linuxArgc + 1) (st.linuxArgsAddr + st.rdSizeOff)
        strWrites := b.strWrites ++
          [⟨st.rdAddrOff, "rd_start=0x" ++ hexStr dest⟩,
           ⟨st.rdSizeOff, "rd_size=0x" ++ hexStr env.rdSize⟩] } ∧
    st.linuxArgsAddr + st.rdAddrOff ≠ 0 ∧
    st.linuxArgsAddr + st.rdSizeOff ≠ 0 ∧
    (∀ (env2 : InitrdEnv) (argv2 : List String),
      st.linuxArgc ≤ (grub_cmd_initrd env2 st argv2).st.linuxArgc) := by
  have hv1 : (st.linuxArgsAddr + st.rdAddrOff) % M32
      = st.linuxArgsAddr + st.rdAddrOff := Nat.mod_eq_of_lt (by omega)
  have hv2 : (st.linuxArgsAddr + st.rdSizeOff) % M32
      = st.linuxArgsAddr + st.rdSizeOff := Nat.mod_eq_of_lt (by omega)
  have hd : dest % M64 = dest := Nat.mod_eq_of_lt hdest
  have hr : env.rdSize % M64 = env.rdSize := Nat.mod_eq_of_lt hsz
  rw [cmd_initrd_success env st argv dest h1 h2 h3 h4 h5 h6]
  simp only [hb, Option.map, hv1, hv2, hd, hr,
    snprintf_rd_start_eq dest hdest, snprintf_rd_size_eq env.rdSize hsz]
  refine ⟨by trivial, by trivial, by trivial, by trivial, by omega, by omega, ?_⟩
  intro env2 argv2
  exact cmd_initrd_argc_mono env2 st argv2

/-- C4 witness: a concrete attach of a 0x1000-byte ramdisk placed at
0x2000. -/
theorem initrd_attach_patches_witness :
    (grub_cmd_initrd ⟨true, .external 0, 4096, some 8192, .external 1, true, .external 2⟩
        { loaded := true, loaderSet := true, initrdLoaded := false,
          linuxArgc := 1, linuxArgsAddr := 4096, rdAddrOff := 24,
          rdSizeOff := 52, entryAddr := 0, targetAddr := 0, linuxSize := 0,
          blob := some ⟨[4116, 0, 0, 0], [⟨20, "a0"⟩], 24, 52⟩ }
        ["initrd.img"]).err = none ∧
    (grub_cmd_initrd ⟨true, .external 0, 4096, some 8192, .external 1, true, .external 2⟩
        { loaded := true, loaderSet := true, initrdLoaded := false,
          linuxArgc := 1, linuxArgsAddr := 4096, rdAddrOff := 24,
          rdSizeOff := 52, entryAddr := 0, targetAddr := 0, linuxSize := 0,
          blob := some ⟨[4116, 0, 0, 0], [⟨20, "a0"⟩], 24, 52⟩ }
        ["initrd.img"]).st.linuxArgc = 3 ∧
    (grub_cmd_initrd ⟨true, .external 0, 4096, some 8192, .external 1, true, .external 2⟩
        { loaded := true, loaderSet := true, initrdLoaded := false,
          linuxArgc := 1, linuxArgsAddr := 4096, rdAddrOff := 24,
          rdSizeOff := 52, entryAddr := 0, targetAddr := 0, linuxSize := 0,
          blob := some ⟨[4116, 0, 0, 0], [⟨20, "a0"⟩], 24, 52⟩ }
        ["initrd.img"]).st.blob = some
      ⟨[4116, 4120, 4148, 0],
       [⟨20, "a0"⟩, ⟨24, "rd_start=0x" ++ hexStr 8192⟩,
        ⟨52, "rd_size=0x" ++ hexStr 4096⟩], 24, 52⟩ := by
  have h := initrd_attach_patches
    ⟨true, .external 0, 4096, some 8192, .external 1, true, .external 2⟩
    { loaded := true, loaderSet := true, initrdLoaded := false,
      linuxArgc := 1, linuxArgsAddr := 4096, rdAddrOff := 24,
      rdSizeOff := 52, entryAddr := 0, targetAddr := 0, linuxSize := 0,
      blob := some ⟨[4116, 0, 0, 0], [⟨20, "a0"⟩], 24, 52⟩ }
    ["initrd.img"] 8192 ⟨[4116, 0, 0, 0], [⟨20, "a0"⟩], 24, 52⟩
    (by decide) rfl rfl rfl rfl rfl rfl (by decide) (by decide)
    (by decide) (by decide) (by decide) (by decide) (by decide)
  refine ⟨h.1, h.2.1, ?_⟩
  rw [h.2.2.2.1]
  decide

/-- C1 (amended): when the un-wrapped byte sum fits a 32-bit int, the
machine size computation equals exactly the claimed formula, and every
byte stored during blob construction and ramdisk patching (including the
NUL terminators of the snprintf-formatted strings, which never store more
than 28 bytes) lies within the computed size. -/
theorem blob_size_exact_and_bounded (argv : List String) (addr : Nat)
    (hne : argv.length ≠ 0) (hfit : preSum argv < 2147483648) :
    argBlobSizeM argv = claimSize argv ∧
    tableBytes argv.length + align4 3 ≤ argBlobSizeM argv ∧
    (∀ w ∈ (buildBlob argv addr).strWrites,
      w.off + w.str.length + 1 ≤ argBlobSizeM argv) ∧
    (buildBlob argv addr).rdAddrOff + align4 28 ≤ argBlobSizeM argv ∧
    (buildBlob argv addr).rdSizeOff + align4 28 ≤ argBlobSizeM argv ∧
    (∀ s : String, (snprintfStr 28 s).length + 1 ≤ 28) := by
  have hsz : argBlobSizeM argv = align8 (preSum argv) :=
    argBlobSizeM_of_small argv hfit
  have hle : preSum argv ≤ argBlobSizeM argv := by
    rw [hsz]; exact le_align8 _
  have hdecomp := preSum_decomp argv
  have ha3 : align4 3 = 4 := by norm_num [align4]
  have ha28 : align4 28 = 28 := by norm_num [align4]
  have ha27 : align4 27 = 28 := by norm_num [align4]
  have hra : (buildBlob argv addr).rdAddrOff
      = tableBytes argv.length + align4 3 + sumAligns argv.tail := by
    simp only [buildBlob, argStep_final]
  have hrs : (buildBlob argv addr).rdSizeOff
      = tableBytes argv.length + align4 3 + sumAligns argv.tail + align4 28 := by
    simp only [buildBlob, argStep_final]
  refine ⟨?_, by omega, ?_, by omega, by omega, ?_⟩
  · rw [hsz, claimSize_eq]
  · have hw : (buildBlob argv addr).strWrites
        = ⟨tableBytes argv.length, "a0"⟩
            :: List.zipWith ArgWrite.mk
              (argOffsets (tableBytes argv.length + align4 3) argv.tail)
              argv.tail := by
      simp only [buildBlob, argStep_writes]
    rw [hw]
    intro w hwmem
    rcases List.mem_cons.mp hwmem with rfl | hmem
    · show tableBytes argv.length + ("a0" : String).length + 1 ≤ argBlobSizeM argv
      have h2 : ("a0" : String).length = 2 := rfl
      omega
    · have hb := argWrites_bounds argv.tail _ w hmem
      have hl := le_align4 (w.str.length + 1)
      omega
  · intro s
    unfold snprintfStr
    split
    · omega
    · have htake : (s.data.take (28 - 1)).length ≤ 27 := by
        rw [List.length_take]; omega
      simp only [String.length_mk]
      omega

/-- C1-amended witness: a concrete two-argument command. -/
theorem blob_size_exact_and_bounded_witness :
    argBlobSizeM ["vmlinux", "root=/dev/sda"]
      = claimSize ["vmlinux", "root=/dev/sda"] ∧
    (∀ w ∈ (buildBlob ["vmlinux", "root=/dev/sda"] 0).strWrites,
      w.off + w.str.length + 1 ≤ argBlobSizeM ["vmlinux", "root=/dev/sda"]) ∧
    (buildBlob ["vmlinux", "root=/dev/sda"] 0).rdSizeOff + align4 28
      ≤ argBlobSizeM ["vmlinux", "root=/dev/sda"] := by
  have h := blob_size_exact_and_bounded ["vmlinux", "root=/dev/sda"] 0
    (by decide) (by decide)
  exact ⟨h.1, h.2.2.1, h.2.2.2.2.1⟩

/-- C1 counterexample data: 134217727 repetitions of a 27-character
argument overflow the 32-bit size computation to 44 (48 after
8-alignment) while the table alone needs 536870924 bytes. -/
def cexS : String := "opt=xxxxxxxxxxxxxxxxxxxxxxx"

def cexArgv : List String := "k" :: List.replicate 134217727 cexS

def cexAddr : Nat := 4294967248

def cexElf : ElfImage := ⟨2, .c64, 0, 2147549184, 0, 0, 2147483648, 131072⟩

def cexEnv : LinuxEnv :=
  { openResult := some cexElf, openErr := .external 0, vtop := fun a => a,
    relocatorOk := true, relocErr := .external 1,
    kernelChunkOk := true, kernelChunkErr := .external 2,
    elfSizeErr := .external 3, elfLoadOk := true,
    elfLoadErr := .external 4, blobChunk := some cexAddr,
    blobAllocErr := .external 5 }

/-- Unfolding lemma for preSum, stated at the variable level so that
instantiating it never makes the kernel evaluate a large argument. -/
theorem preSum_def (argv : List String) : preSum argv
    = argv.length * 4 + 2 * 4 + 4 + align4 3 + sumAligns argv.tail
      + align4 28 + align4 27 := rfl

/-- Unfolding lemma for tableBytes at the variable level. -/
theorem tableBytes_def (argc : Nat) : tableBytes argc = (argc + 1 + 2) * 4 := rfl

/-- C1 counterexample: for the overflowing argument sequence cexArgv the
machine size (48) differs from the claimed formula (4294967344); the load
command is not rejected — it succeeds and builds the blob — the blob
chunk is requested with only 48 bytes, and already the first string store
(the "a0" copy at offset 536870924) lies far outside the allocated
size. -/
theorem blob_size_overflow_cex :
    argBlobSizeM cexArgv = 48 ∧
    claimSize cexArgv = 4294967344 ∧
    argBlobSizeM cexArgv ≠ claimSize cexArgv ∧
    (grub_cmd_linux cexEnv initState cexArgv).err = none ∧
    (grub_cmd_linux cexEnv initState cexArgv).allocs.getD 1 (.fixedAt 0 0)
      = .inRange 0 4294967248 48 8 .high ∧
    (grub_cmd_linux cexEnv initState cexArgv).st.blob
      = some (buildBlob cexArgv cexAddr) ∧
    (buildBlob cexArgv cexAddr).strWrites.head?
      = some ⟨536870924, "a0"⟩ ∧
    argBlobSizeM cexArgv < 536870924 + "a0".length + 1 := by
  have hlenS : cexS.length = 27 := by decide
  have htail : cexArgv.tail = List.replicate 134217727 cexS := by
    simp only [cexArgv, List.tail_cons]
  have hsum : sumAligns cexArgv.tail = 3758096356 := by
    rw [htail, sumAligns_replicate, hlenS]
    norm_num [align4]
  have hlen : cexArgv.length = 134217728 := by
    have h : cexArgv.length = 134217727 + 1 := by
      show ("k" :: List.replicate 134217727 cexS).length = 134217727 + 1
      rw [List.length_cons, List.length_replicate]
    omega
  have hpre : preSum cexArgv = 4294967340 := by
    rw [preSum_def, hlen, hsum]
    norm_num [align4]
  have ht : tableBytes cexArgv.length = 536870924 := by
    rw [tableBytes_def, hlen]
  have hsize : argBlobSizeM cexArgv = 48 := by
    rw [argBlobSizeM_eq, hpre]
    norm_num [align8, M32]
  have hclaim : claimSize cexArgv = 4294967344 := by
    rw [claimSize_eq, hpre]
    norm_num [align8]
  have hrun := cmd_linux_success64 cexEnv initState cexArgv cexElf cexAddr
    (by rw [hlen]; norm_num) rfl rfl rfl (by decide) rfl rfl rfl rfl
  have hhead : (buildBlob cexArgv cexAddr).strWrites.head?
      = some ⟨536870924, "a0"⟩ := by
    have hw : (buildBlob cexArgv cexAddr).strWrites
        = ⟨tableBytes cexArgv.length, "a0"⟩
            :: List.zipWith ArgWrite.mk
              (argOffsets (tableBytes cexArgv.length + align4 3) cexArgv.tail)
              cexArgv.tail := by
      simp only [buildBlob, argStep_writes]
    rw [hw, ht, List.head?_cons]
  refine ⟨hsize, hclaim, by rw [hsize, hclaim]; norm_num, ?_, ?_, ?_, hhead, ?_⟩
  · rw [hrun]
  · rw [hrun]
    simp only [List.getD_cons_succ, List.getD_cons_zero]
    rw [hsize]
    norm_num [maxStart32, int32ToSizeT, M32]
  · rw [hrun]
  · have h2 : ("a0" : String).length = 2 := rfl
    rw [hsize, h2]
    norm_num

/-- C2 counterexample: on the overflowing argument sequence cexArgv the
load command still succeeds, but pointer-table slot 0 holds the 32-bit
truncation 536870876 of the "a0" copy's full address
4294967248 + 536870924 = 4831838172 — address bits are lost, refuting the
claim's universal losslessness. -/
theorem slot_truncation_lossy_cex :
    (grub_cmd_linux cexEnv initState cexArgv).err = none ∧
    (grub_cmd_linux cexEnv initState cexArgv).st.linuxArgsAddr = 4294967248 ∧
    (buildBlob cexArgv 4294967248).strWrites.head? = some ⟨536870924, "a0"⟩ ∧
    (buildBlob cexArgv 4294967248).slots.head? = some 536870876 ∧
    (4294967248 : Nat) + 536870924 = 4831838172 ∧
    (536870876 : Nat) ≠ 4831838172 := by
  have hlen : cexArgv.length = 134217728 := by
    have h : cexArgv.length = 134217727 + 1 := by
      show ("k" :: List.replicate 134217727 cexS).length = 134217727 + 1
      rw [List.length_cons, List.length_replicate]
    omega
  have ht : tableBytes cexArgv.length = 536870924 := by
    rw [tableBytes_def, hlen]
  have hrun := cmd_linux_success64 cexEnv initState cexArgv cexElf cexAddr
    (by rw [hlen]; norm_num) rfl rfl rfl (by decide) rfl rfl rfl rfl
  have hw : (buildBlob cexArgv 4294967248).strWrites
      = ⟨tableBytes cexArgv.length, "a0"⟩
          :: List.zipWith ArgWrite.mk
            (argOffsets (tableBytes cexArgv.length + align4 3) cexArgv.tail)
            cexArgv.tail := by
    simp only [buildBlob, argStep_writes]
  have hs : (buildBlob cexArgv 4294967248).slots
      = ((4294967248 + tableBytes cexArgv.length) % M32)
          :: ((argOffsets (tableBytes cexArgv.length + align4 3) cexArgv.tail).map
                fun o => (4294967248 + o) % M32)
          ++ [0, 0, 0] := by
    simp only [buildBlob, argStep_fst]
  refine ⟨?_, ?_, ?_, ?_, by norm_num, by norm_num⟩
  · rw [hrun]
  · rw [hrun]
    rfl
  · rw [hw, ht, List.head?_cons]
  · rw [hs, ht, List.cons_append, List.head?_cons]
    norm_num [M32]

end GrubMips64Linux
